import Mathlib

/-!
Verification development for cazira (`src/main.py`), a sequential pipeline that
fetches GitHub repository metadata, filters by license, downloads README.md
files and persists them.  The Python code is embedded shallowly: HTTP traffic
and the filesystem are abstracted by an oracle environment `Env`, and every
observable action (fetch calls, log lines, directory creation, file writes)
is recorded in an event trace.  An uncaught Python exception is modelled by
the `Bool` "aborted" flag returned alongside the trace: the orchestrator's
only `try`/`except` guards the `split`, and `save_readme` catches `Exception`
around the write, so a transport exception raised by `requests.get` escapes
the loop.
-/

namespace Cazira

/-- Whitespace characters removed by Python `str.strip()` (ASCII subset). -/
def pySpace (c : Char) : Bool :=
  c = ' ' || c = '\t' || c = '\n' || c = '\r' || c = '\x0b' || c = '\x0c'

/-- Python `str.strip()`: drop leading and trailing whitespace. -/
def pyStrip (s : String) : String :=
  String.mk (((s.data.dropWhile pySpace).reverse.dropWhile pySpace).reverse)

/-- Python `str.split(sep)` for a one-character separator, on the character
list.  `[]` splits to `[[]]`, matching Python's `"".split(sep) == [""]`. -/
def pySplitChar (sep : Char) : List Char → List (List Char)
  | [] => [[]]
  | c :: rest =>
    if c = sep then [] :: pySplitChar sep rest
    else
      match pySplitChar sep rest with
      | [] => [[c]]
      | h :: t => (c :: h) :: t

/-- Python `str.split(sep)` for a one-character separator. -/
def pySplit (sep : Char) (s : String) : List String :=
  (pySplitChar sep s.data).map String.mk

/-- Python `str.lower()`, restricted to the ASCII case mapping (every string
compared in the program is ASCII). -/
def pyLower (s : String) : String :=
  String.mk (s.data.map Char.toLower)

/-- Python `str.replace(pat, rep)` where both pattern and replacement are a
single character: replace character-wise. -/
def pyReplaceChar (pat rep : Char) (s : String) : String :=
  String.mk (s.data.map (fun c => if c = pat then rep else c))

/-- Whether a string starts with the path separator character. -/
def startsWithSlash (s : String) : Bool :=
  match s.data with
  | [] => false
  | c :: _ => c = '/'

/-- Whether a string ends with the path separator character. -/
def endsWithSlash (s : String) : Bool :=
  match s.data.getLast? with
  | some c => c = '/'
  | none => false

/-- Python `os.path.join(directory, fname)` for POSIX paths: an absolute
second component wins; otherwise a separator is inserted unless the first
component is empty or already ends with one. -/
def pathJoin (directory fname : String) : String :=
  if startsWithSlash fname then fname
  else if directory = "" then fname
  else if endsWithSlash directory then directory ++ fname
  else directory ++ "/" ++ fname

/-- Logging levels used by the script. -/
inductive LogLevel where
  | debug
  | info
  | warning
  | error
deriving DecidableEq, Repr

/-- Observable actions of one run: HTTP calls, log lines, directory creation
and file writes. -/
inductive Event where
  | metaFetch (owner repo : String)
  | readmeFetch (owner repo branch : String)
  | mkdir (dir : String)
  | fileWrite (path content : String)
  | log (level : LogLevel) (msg : String)
deriving DecidableEq, Repr

/-- Whether an event is the metadata HTTP call. -/
def Event.isMetaFetch : Event → Bool
  | .metaFetch _ _ => true
  | _ => false

/-- Whether an event is the README HTTP call. -/
def Event.isReadmeFetch : Event → Bool
  | .readmeFetch _ _ _ => true
  | _ => false

/-- Whether an event is a file write. -/
def Event.isFileWrite : Event → Bool
  | .fileWrite _ _ => true
  | _ => false

/-- Whether an event is a warning-level log line. -/
def Event.isWarnLog : Event → Bool
  | .log .warning _ => true
  | _ => false

/-- Whether an event is an error-level log line. -/
def Event.isErrorLog : Event → Bool
  | .log .error _ => true
  | _ => false

/-- Content of the last write to path `p` in the trace, i.e. what reading the
file back after the run returns. -/
def readBack (evs : List Event) (p : String) : Option String :=
  evs.foldl
    (fun acc e =>
      match e with
      | .fileWrite q c => if q = p then some c else acc
      | _ => acc)
    none

/-- The `license` value of the metadata document, when it is a JSON object:
its `name` key (absent in some documents) plus whether it carries any other
key.  A Python dict is falsy exactly when it is empty, so truthiness of the
object needs to know whether keys other than `name` exist. -/
structure LicenseInfo where
  name : Option String
  hasOtherKeys : Bool
deriving DecidableEq, Repr

/-- Python truthiness of the license dict: non-empty. -/
def LicenseInfo.truthy (l : LicenseInfo) : Bool :=
  l.name.isSome || l.hasOtherKeys

/-- The metadata document returned by the API, reduced to the keys the
script consults.  `license = none` covers both an absent `license` key and a
JSON `null` value (Python `dict.get` yields `None`, falsy, in both cases; a
present-but-null key still makes the document non-empty, which
`hasOtherKeys` accounts for). -/
structure RepoData where
  license : Option LicenseInfo
  default_branch : Option String
  hasOtherKeys : Bool
deriving DecidableEq, Repr

/-- Python truthiness of the metadata dict: non-empty. -/
def RepoData.truthy (d : RepoData) : Bool :=
  d.license.isSome || d.default_branch.isSome || d.hasOtherKeys

/-- Outcome of the `requests.get` on the metadata endpoint: a raised
transport exception, a 200 response with its parsed JSON document, or a
non-200 response with its status code and body text. -/
inductive MetaFetchOutcome where
  | exn
  | ok (data : RepoData)
  | err (status : Nat) (text : String)
deriving DecidableEq, Repr

/-- Outcome of the `requests.get` on the raw README endpoint: a raised
transport exception, a 200 response with its body text, or a non-200
response with its status code. -/
inductive ReadmeFetchOutcome where
  | exn
  | ok (text : String)
  | err (status : Nat)
deriving DecidableEq, Repr

/-- Oracle environment: what the network answers for each request and how
the filesystem behaves.  `write_result` is the outcome of `open(...).write`
(`.error e` models a raised exception rendered as `e`). -/
structure Env where
  repo_info_response : String → String → List (String × String) → MetaFetchOutcome
  readme_response : String → String → String → List (String × String) → ReadmeFetchOutcome
  path_exists : String → Bool
  write_result : String → String → Except String Unit

/-- Constant `GITHUB_API_URL` from the script. -/
def GITHUB_API_URL : String := "https://api.github.com/repos/"

/-- Constant `GITHUB_RAW_URL` from the script. -/
def GITHUB_RAW_URL : String := "https://raw.githubusercontent.com/"

/-- Constant `ALLOWED_LICENSES` from the script. -/
def ALLOWED_LICENSES : List String :=
  ["mit license", "apache license 2.0", "bsd license"]

/-- The `headers` dict both fetch functions build from the optional token. -/
def buildHeaders (token : Option String) : List (String × String) :=
  match token with
  | some t => [("Authorization", "token " ++ t)]
  | none => []

/-- `get_repo_info`: GET the metadata endpoint.  Returns the emitted events
and either `.error ()` (the transport exception propagates to the caller) or
`.ok (some data)` on a 200 response, `.ok none` otherwise.  Log messages
reproduce the source f-strings (surrounding quote characters omitted). -/
def get_repo_info (env : Env) (owner repo : String) (token : Option String) :
    List Event × Except Unit (Option RepoData) :=
  let headers := buildHeaders token
  let url := GITHUB_API_URL ++ owner ++ "/" ++ repo
  let pre : List Event :=
    [.log .debug ("Fetching data from URL: " ++ url), .metaFetch owner repo]
  match env.repo_info_response owner repo headers with
  | .exn => (pre, .error ())
  | .ok data =>
      (pre ++ [.log .info ("Successfully fetched data for repository: " ++ owner ++ "/" ++ repo)],
       .ok (some data))
  | .err status text =>
      (pre ++ [.log .error ("Failed to fetch data for repository: " ++ owner ++ "/" ++ repo ++
          ". Status Code: " ++ toString status ++ ". Response: " ++ text)],
       .ok none)

/-- `download_readme`: GET the raw README endpoint.  Returns the emitted
events and either `.error ()` (transport exception propagates) or
`.ok (some text)` on a 200 response, `.ok none` otherwise. -/
def download_readme (env : Env) (owner repo default_branch : String) (token : Option String) :
    List Event × Except Unit (Option String) :=
  let headers := buildHeaders token
  let url := GITHUB_RAW_URL ++ owner ++ "/" ++ repo ++ "/" ++ default_branch ++ "/README.md"
  let pre : List Event :=
    [.log .debug ("Downloading README.md from URL: " ++ url), .readmeFetch owner repo default_branch]
  match env.readme_response owner repo default_branch headers with
  | .exn => (pre, .error ())
  | .ok text =>
      (pre ++ [.log .info ("Successfully downloaded README.md for repository: " ++ owner ++ "/" ++ repo)],
       .ok (some text))
  | .err status =>
      (pre ++ [.log .error ("Failed to download README.md for repository: " ++ owner ++ "/" ++ repo ++
          ". Status Code: " ++ toString status)],
       .ok none)

/-- `save_readme`: create the directory when absent, sanitize the filename by
replacing `/` with `_`, and write `<directory>/<sanitized>.md`.  The
`try`/`except Exception` around the write turns a write failure into an
error-level log line, so this function never propagates an exception. -/
def save_readme (env : Env) (content filename directory : String) : List Event :=
  let pre : List Event :=
    if env.path_exists directory then []
    else [.mkdir directory, .log .debug ("Created directory: " ++ directory)]
  let sanitized_filename := pyReplaceChar '/' '_' filename
  let file_path := pathJoin directory (sanitized_filename ++ ".md")
  match env.write_result file_path content with
  | .ok _ => pre ++ [.fileWrite file_path content, .log .info ("README.md saved: " ++ file_path)]
  | .error e =>
      pre ++ [.log .error ("Failed to save README.md file " ++ file_path ++ ". Error: " ++ e)]

/-- The license gate of `process_repositories`:
`license_info.get("name", "").lower()` is accepted iff it is a member of
`ALLOWED_LICENSES`. -/
def licenseGateAccepts (license_info : LicenseInfo) : Bool :=
  ALLOWED_LICENSES.contains (pyLower (license_info.name.getD ""))

/-- The loop body of `process_repositories` after `full_repo` has been split
into `owner` and `repo`.  The returned flag is `true` when an uncaught
exception escapes the iteration (only a transport exception from one of the
two fetches can). -/
def processParsed (env : Env) (output_dir : String) (token : Option String)
    (full_repo owner repo : String) : List Event × Bool :=
  let pre : List Event :=
    [.log .debug ("Processing repository: Owner=" ++ owner ++ ", Repo=" ++ repo)]
  let step1 := get_repo_info env owner repo token
  match step1.2 with
  | .error _ => (pre ++ step1.1, true)
  | .ok none =>
      (pre ++ step1.1 ++
        [.log .warning ("Skipping repository " ++ full_repo ++ " due to failed data retrieval.")],
       false)
  | .ok (some repo_data) =>
    if !repo_data.truthy then
      (pre ++ step1.1 ++
        [.log .warning ("Skipping repository " ++ full_repo ++ " due to failed data retrieval.")],
       false)
    else
      match repo_data.license with
      | none =>
          (pre ++ step1.1 ++
            [.log .warning ("Repository " ++ full_repo ++ " does not have a license. Skipping.")],
           false)
      | some license_info =>
        if !license_info.truthy then
          (pre ++ step1.1 ++
            [.log .warning ("Repository " ++ full_repo ++ " does not have a license. Skipping.")],
           false)
        else
          let license_name := pyLower (license_info.name.getD "")
          if !licenseGateAccepts license_info then
            (pre ++ step1.1 ++
              [.log .warning ("Repository " ++ full_repo ++ " has a license " ++ license_name ++
                " which is not allowed. Skipping.")],
             false)
          else
            let default_branch := repo_data.default_branch.getD "master"
            let step2 := download_readme env owner repo default_branch token
            match step2.2 with
            | .error _ => (pre ++ step1.1 ++ step2.1, true)
            | .ok none =>
                (pre ++ step1.1 ++ step2.1 ++
                  [.log .warning ("Repository " ++ full_repo ++
                    " does not have a README.md or it could not be downloaded.")],
                 false)
            | .ok (some readme_content) =>
              if readme_content = "" then
                (pre ++ step1.1 ++ step2.1 ++
                  [.log .warning ("Repository " ++ full_repo ++
                    " does not have a README.md or it could not be downloaded.")],
                 false)
              else
                (pre ++ step1.1 ++ step2.1 ++ save_readme env readme_content repo output_dir,
                 false)

/-- One iteration of the `process_repositories` loop: strip the entry, skip
blank entries, split on `/` catching the `ValueError` of a malformed entry,
then run the parsed pipeline. -/
def processOne (env : Env) (output_dir : String) (token : Option String)
    (entry : String) : List Event × Bool :=
  let full_repo := pyStrip entry
  if full_repo = "" then
    ([.log .warning "Encountered empty repository entry. Skipping."], false)
  else
    match pySplit '/' full_repo with
    | [owner, repo] => processParsed env output_dir token full_repo owner repo
    | _ =>
        ([.log .error ("Invalid repository format: " ++ full_repo ++
          ". Expected owner/repo. Skipping.")],
         false)

/-- `process_repositories`: iterate the entries in order; an uncaught
exception in one iteration aborts the whole loop, leaving later entries
unprocessed. -/
def process_repositories (env : Env) (repos : List String) (output_dir : String)
    (token : Option String) : List Event × Bool :=
  match repos with
  | [] => ([], false)
  | entry :: rest =>
    match processOne env output_dir token entry with
    | (evs, true) => (evs, true)
    | (evs, false) =>
      let r := process_repositories env rest output_dir token
      (evs ++ r.1, r.2)

/-- Environment with constant network and filesystem behaviour, used to
instantiate theorems at concrete inputs. -/
def mkEnv (m : MetaFetchOutcome) (r : ReadmeFetchOutcome) (w : Except String Unit) : Env :=
  { repo_info_response := fun _ _ _ => m
  , readme_response := fun _ _ _ _ => r
  , path_exists := fun _ => true
  , write_result := fun _ _ => w }

/-- Environment where the metadata fetch of owner `a` raises a transport
exception and every other metadata fetch answers a 500. -/
def envExn : Env :=
  { repo_info_response := fun owner _ _ =>
      if owner = "a" then .exn else .err 500 "Server Error"
  , readme_response := fun _ _ _ _ => .err 404
  , path_exists := fun _ => true
  , write_result := fun _ _ => .ok () }

/-- A license object with an allowed name. -/
def lMIT : LicenseInfo := { name := some "MIT License", hasOtherKeys := true }

/-- A metadata document with an allowed license and a default branch. -/
def dMIT : RepoData := { license := some lMIT, default_branch := some "main", hasOtherKeys := true }

/-- A metadata document with an allowed license and no `default_branch` key. -/
def dMITnoBranch : RepoData :=
  { license := some lMIT, default_branch := none, hasOtherKeys := true }

/-- A metadata document without a `license` key. -/
def dNoLicense : RepoData :=
  { license := none, default_branch := some "main", hasOtherKeys := true }

/-- A non-empty license object lacking the `name` key. -/
def lNameless : LicenseInfo := { name := none, hasOtherKeys := true }

/-- A metadata document whose license object lacks `name` but is non-empty. -/
def dNameless : RepoData :=
  { license := some lNameless, default_branch := some "main", hasOtherKeys := false }

/-- A metadata document whose license object is the empty dict. -/
def dEmptyLicense : RepoData :=
  { license := some { name := none, hasOtherKeys := false },
    default_branch := some "main", hasOtherKeys := true }

/-- A well-formed entry runs the parsed pipeline on its two components. -/
theorem processOne_eq_processParsed (env : Env) (output_dir : String) (token : Option String)
    (entry owner repo : String)
    (htrim : pyStrip entry = entry) (hne : entry ≠ "")
    (hsplit : pySplit '/' entry = [owner, repo]) :
    processOne env output_dir token entry =
      processParsed env output_dir token entry owner repo := by
  simp [processOne, htrim, hne, hsplit]

/-- When one iteration raises no uncaught exception, the loop goes on to the
remaining entries and their trace follows. -/
theorem process_repositories_cons_ok (env : Env) (rest : List String) (output_dir : String)
    (token : Option String) (entry : String)
    (h : (processOne env output_dir token entry).2 = false) :
    process_repositories env (entry :: rest) output_dir token =
      ((processOne env output_dir token entry).1 ++
        (process_repositories env rest output_dir token).1,
       (process_repositories env rest output_dir token).2) := by
  rcases hp : processOne env output_dir token entry with ⟨evs, b⟩
  rw [hp] at h
  simp only at h
  subst h
  simp [process_repositories, hp]

/-- When one iteration raises an uncaught exception, the loop stops there:
the remaining entries contribute nothing to the trace. -/
theorem process_repositories_cons_abort (env : Env) (rest : List String) (output_dir : String)
    (token : Option String) (entry : String)
    (h : (processOne env output_dir token entry).2 = true) :
    process_repositories env (entry :: rest) output_dir token =
      ((processOne env output_dir token entry).1, true) := by
  rcases hp : processOne env output_dir token entry with ⟨evs, b⟩
  rw [hp] at h
  simp only at h
  subst h
  simp [process_repositories, hp]

/-- C2: the license gate accepts a name exactly when its lower-cased form is
string-equal to one of the three allow-listed strings, with no trimming or
normalization; in particular the trailing-whitespace variant
`MIT License ` is rejected while `MIT License` is accepted. -/
theorem license_gate_exact_match :
    (∀ (name : String) (b : Bool),
      licenseGateAccepts { name := some name, hasOtherKeys := b } = true ↔
        (pyLower name = "mit license" ∨ pyLower name = "apache license 2.0" ∨
         pyLower name = "bsd license")) ∧
    licenseGateAccepts { name := some "MIT License", hasOtherKeys := false } = true ∧
    licenseGateAccepts { name := some "MIT License ", hasOtherKeys := false } = false := by
  refine ⟨fun name b => ?_, by decide, by decide⟩
  simp [licenseGateAccepts, ALLOWED_LICENSES]

/-- C3: an entry that does not split on `/` into exactly two parts after
trimming (which includes entries that are blank after trimming, since they
split into one part) is skipped: no exception escapes the iteration, neither
fetch is called, and the loop continues with the remaining entries. -/
theorem malformed_entry_skipped (env : Env) (output_dir : String) (token : Option String)
    (entry : String) (rest : List String)
    (h : (pySplit '/' (pyStrip entry)).length ≠ 2) :
    (processOne env output_dir token entry).2 = false ∧
    (processOne env output_dir token entry).1.filter Event.isMetaFetch = [] ∧
    (processOne env output_dir token entry).1.filter Event.isReadmeFetch = [] ∧
    process_repositories env (entry :: rest) output_dir token =
      ((processOne env output_dir token entry).1 ++
        (process_repositories env rest output_dir token).1,
       (process_repositories env rest output_dir token).2) := by
  have h3 : (processOne env output_dir token entry).2 = false ∧
      (processOne env output_dir token entry).1.filter Event.isMetaFetch = [] ∧
      (processOne env output_dir token entry).1.filter Event.isReadmeFetch = [] := by
    by_cases he : pyStrip entry = ""
    · simp [processOne, he, Event.isMetaFetch, Event.isReadmeFetch, List.filter]
    · rcases hs : pySplit '/' (pyStrip entry) with _ | ⟨a, _ | ⟨b, _ | ⟨c, tl⟩⟩⟩
      · simp [processOne, he, hs, Event.isMetaFetch, Event.isReadmeFetch, List.filter]
      · simp [processOne, he, hs, Event.isMetaFetch, Event.isReadmeFetch, List.filter]
      · exact absurd (by rw [hs]; rfl) h
      · simp [processOne, he, hs, Event.isMetaFetch, Event.isReadmeFetch, List.filter]
  exact ⟨h3.1, h3.2.1, h3.2.2,
    process_repositories_cons_ok env rest output_dir token entry h3.1⟩

/-- Witness for C3 at the slash-free entry `not-a-repo` and at `a/b/c`. -/
theorem malformed_entry_skipped_witness :
    ((processOne (mkEnv (.err 500 "Server Error") (.err 404) (.ok ()))
        "output" none "not-a-repo").2 = false ∧
     (processOne (mkEnv (.err 500 "Server Error") (.err 404) (.ok ()))
        "output" none "not-a-repo").1.filter Event.isMetaFetch = []) ∧
    ((processOne (mkEnv (.err 500 "Server Error") (.err 404) (.ok ()))
        "output" none "a/b/c").2 = false ∧
     (processOne (mkEnv (.err 500 "Server Error") (.err 404) (.ok ()))
        "output" none "a/b/c").1.filter Event.isMetaFetch = []) := by
  have h1 := malformed_entry_skipped (mkEnv (.err 500 "Server Error") (.err 404) (.ok ()))
    "output" none "not-a-repo" [] (by decide)
  have h2 := malformed_entry_skipped (mkEnv (.err 500 "Server Error") (.err 404) (.ok ()))
    "output" none "a/b/c" [] (by decide)
  exact ⟨⟨h1.1, h1.2.1⟩, ⟨h2.1, h2.2.1⟩⟩

/-- C4: a metadata document without a `license` key makes the pipeline skip
the repository without any README fetch and without any file write, with
exactly one warning-level log line and no exception escaping. -/
theorem missing_license_skips (env : Env) (output_dir : String) (token : Option String)
    (full_repo owner repo : String) (d : RepoData)
    (hmeta : env.repo_info_response owner repo (buildHeaders token) = .ok d)
    (hlic : d.license = none) :
    (processParsed env output_dir token full_repo owner repo).2 = false ∧
    (processParsed env output_dir token full_repo owner repo).1.filter Event.isReadmeFetch = [] ∧
    (processParsed env output_dir token full_repo owner repo).1.filter Event.isFileWrite = [] ∧
    ((processParsed env output_dir token full_repo owner repo).1.filter Event.isWarnLog).length = 1 := by
  cases htru : d.truthy <;>
    simp [processParsed, get_repo_info, hmeta, hlic, htru,
      Event.isReadmeFetch, Event.isFileWrite, Event.isWarnLog, List.filter]

/-- Witness for C4 at a concrete document lacking `license`. -/
theorem missing_license_skips_witness :
    (processParsed (mkEnv (.ok dNoLicense) (.ok "# Hello") (.ok ()))
      "output" none "o/r" "o" "r").2 = false ∧
    (processParsed (mkEnv (.ok dNoLicense) (.ok "# Hello") (.ok ()))
      "output" none "o/r" "o" "r").1.filter Event.isReadmeFetch = [] ∧
    ((processParsed (mkEnv (.ok dNoLicense) (.ok "# Hello") (.ok ()))
      "output" none "o/r" "o" "r").1.filter Event.isWarnLog).length = 1 := by
  have h := missing_license_skips (mkEnv (.ok dNoLicense) (.ok "# Hello") (.ok ()))
    "output" none "o/r" "o" "r" dNoLicense (by decide) (by decide)
  exact ⟨h.1, h.2.1, h.2.2.2⟩

/-- C7: every file write performed by persistence targets the filename with
each `/` replaced by `_`; the sanitization changes nothing else: it
preserves the length and maps each character to `_` exactly when it is `/`
and to itself otherwise. -/
theorem sanitize_replaces_slash_only (env : Env) (content filename directory : String) :
    ((save_readme env content filename directory).filter Event.isFileWrite).all
      (fun e => e = .fileWrite
        (pathJoin directory (pyReplaceChar '/' '_' filename ++ ".md")) content) = true ∧
    (pyReplaceChar '/' '_' filename).data.length = filename.data.length ∧
    ∀ i : Nat, (pyReplaceChar '/' '_' filename).data.getD i ' ' =
      if filename.data.getD i ' ' = '/' then '_' else filename.data.getD i ' ' := by
  refine ⟨?_, by simp [pyReplaceChar], ?_⟩
  · cases hp : env.path_exists directory <;>
      cases hw : env.write_result (pathJoin directory (pyReplaceChar '/' '_' filename ++ ".md")) content <;>
      simp [save_readme, hp, hw, Event.isFileWrite, List.filter]
  · intro i
    rcases h : filename.data[i]? with _ | c
    · simp [pyReplaceChar, List.getD, h]
    · simp [pyReplaceChar, List.getD, h]

/-- C5: when the metadata passes the license gate, the README fetch yields a
non-empty body and the disk write succeeds, the pipeline performs exactly
one file write, at `<output_dir>/<repo>.md`, and reading that path back from
the trace returns exactly the fetched text. -/
theorem allowed_license_readme_roundtrip (env : Env) (output_dir : String)
    (token : Option String) (full_repo owner repo : String)
    (d : RepoData) (l : LicenseInfo) (text : String)
    (hmeta : env.repo_info_response owner repo (buildHeaders token) = .ok d)
    (htru : d.truthy = true)
    (hlic : d.license = some l)
    (hltru : l.truthy = true)
    (hallow : licenseGateAccepts l = true)
    (hreadme : env.readme_response owner repo (d.default_branch.getD "master")
      (buildHeaders token) = .ok text)
    (hne : text ≠ "")
    (hsan : pyReplaceChar '/' '_' repo = repo)
    (hd0 : output_dir ≠ "")
    (hd1 : endsWithSlash output_dir = false)
    (hr1 : startsWithSlash (repo ++ ".md") = false)
    (hwrite : env.write_result (output_dir ++ "/" ++ (repo ++ ".md")) text = .ok ()) :
    (processParsed env output_dir token full_repo owner repo).2 = false ∧
    (processParsed env output_dir token full_repo owner repo).1.filter Event.isFileWrite =
      [.fileWrite (output_dir ++ "/" ++ (repo ++ ".md")) text] ∧
    readBack (processParsed env output_dir token full_repo owner repo).1
      (output_dir ++ "/" ++ (repo ++ ".md")) = some text := by
  cases hp : env.path_exists output_dir <;>
    simp [processParsed, get_repo_info, download_readme, save_readme, pathJoin, readBack,
      hmeta, htru, hlic, hltru, hallow, hreadme, hne, hsan, hd0, hd1, hr1, hwrite, hp,
      Event.isFileWrite, List.filter]

/-- Witness for C5: the happy path writes `output/r.md` with the fetched
text and the trace reads it back verbatim. -/
theorem allowed_license_readme_roundtrip_witness :
    (processParsed (mkEnv (.ok dMIT) (.ok "# Hello") (.ok ()))
      "output" none "o/r" "o" "r").1.filter Event.isFileWrite =
      [.fileWrite ("output" ++ "/" ++ ("r" ++ ".md")) "# Hello"] ∧
    readBack (processParsed (mkEnv (.ok dMIT) (.ok "# Hello") (.ok ()))
      "output" none "o/r" "o" "r").1 ("output" ++ "/" ++ ("r" ++ ".md")) = some "# Hello" := by
  have h := allowed_license_readme_roundtrip (mkEnv (.ok dMIT) (.ok "# Hello") (.ok ()))
    "output" none "o/r" "o" "r" dMIT lMIT "# Hello"
    (by decide) (by decide) (by decide) (by decide) (by decide) (by decide)
    (by decide) (by decide) (by decide) (by decide) (by decide) rfl
  exact ⟨h.2.1, h.2.2⟩

/-- C6: on the write path, a failing disk write is caught: it produces an
error-level log line, no file-write event, no exception escapes the
iteration, and the loop continues with the remaining entries. -/
theorem write_failure_contained (env : Env) (output_dir : String) (token : Option String)
    (entry owner repo : String) (rest : List String)
    (d : RepoData) (l : LicenseInfo) (text e : String)
    (htrim : pyStrip entry = entry) (hne : entry ≠ "")
    (hsplit : pySplit '/' entry = [owner, repo])
    (hmeta : env.repo_info_response owner repo (buildHeaders token) = .ok d)
    (htru : d.truthy = true)
    (hlic : d.license = some l)
    (hltru : l.truthy = true)
    (hallow : licenseGateAccepts l = true)
    (hreadme : env.readme_response owner repo (d.default_branch.getD "master")
      (buildHeaders token) = .ok text)
    (htext : text ≠ "")
    (hwrite : env.write_result
      (pathJoin output_dir (pyReplaceChar '/' '_' repo ++ ".md")) text = .error e) :
    (processOne env output_dir token entry).2 = false ∧
    (processOne env output_dir token entry).1.filter Event.isErrorLog ≠ [] ∧
    (processOne env output_dir token entry).1.filter Event.isFileWrite = [] ∧
    process_repositories env (entry :: rest) output_dir token =
      ((processOne env output_dir token entry).1 ++
        (process_repositories env rest output_dir token).1,
       (process_repositories env rest output_dir token).2) := by
  have heq := processOne_eq_processParsed env output_dir token entry owner repo htrim hne hsplit
  have h2 : (processOne env output_dir token entry).2 = false := by
    rw [heq]
    simp [processParsed, get_repo_info, download_readme, save_readme,
      hmeta, htru, hlic, hltru, hallow, hreadme, htext, hwrite]
  refine ⟨h2, ?_, ?_, process_repositories_cons_ok env rest output_dir token entry h2⟩
  · rw [heq]
    cases hp : env.path_exists output_dir <;>
      simp [processParsed, get_repo_info, download_readme, save_readme,
        hmeta, htru, hlic, hltru, hallow, hreadme, htext, hwrite, hp,
        Event.isErrorLog, List.filter]
  · rw [heq]
    cases hp : env.path_exists output_dir <;>
      simp [processParsed, get_repo_info, download_readme, save_readme,
        hmeta, htru, hlic, hltru, hallow, hreadme, htext, hwrite, hp,
        Event.isFileWrite, List.filter]

/-- Witness for C6: with a disk write that fails, the iteration ends
normally, logs an error and writes nothing. -/
theorem write_failure_contained_witness :
    (processOne (mkEnv (.ok dMIT) (.ok "# Hello") (.error "disk full"))
      "output" none "o/r").2 = false ∧
    (processOne (mkEnv (.ok dMIT) (.ok "# Hello") (.error "disk full"))
      "output" none "o/r").1.filter Event.isErrorLog ≠ [] ∧
    (processOne (mkEnv (.ok dMIT) (.ok "# Hello") (.error "disk full"))
      "output" none "o/r").1.filter Event.isFileWrite = [] := by
  have h := write_failure_contained (mkEnv (.ok dMIT) (.ok "# Hello") (.error "disk full"))
    "output" none "o/r" "o" "r" [] dMIT lMIT "# Hello" "disk full"
    (by decide) (by decide) (by decide) (by decide) (by decide) (by decide)
    (by decide) (by decide) (by decide) (by decide) rfl
  exact ⟨h.1, h.2.1, h.2.2.1⟩

/-- C8: when the metadata passes the license gate but has no
`default_branch` key, the README fetch is still attempted, against branch
`master`. -/
theorem missing_default_branch_uses_master (env : Env) (output_dir : String)
    (token : Option String) (full_repo owner repo : String)
    (d : RepoData) (l : LicenseInfo)
    (hmeta : env.repo_info_response owner repo (buildHeaders token) = .ok d)
    (htru : d.truthy = true)
    (hlic : d.license = some l)
    (hltru : l.truthy = true)
    (hallow : licenseGateAccepts l = true)
    (hbranch : d.default_branch = none) :
    Event.readmeFetch owner repo "master" ∈
      (processParsed env output_dir token full_repo owner repo).1 := by
  cases hr : env.readme_response owner repo "master" (buildHeaders token) <;>
    simp [processParsed, get_repo_info, download_readme,
      hmeta, htru, hlic, hltru, hallow, hbranch, hr]
  case ok text =>
    by_cases ht : text = "" <;> simp [ht]

/-- Witness for C8 at a concrete document lacking `default_branch`. -/
theorem missing_default_branch_uses_master_witness :
    Event.readmeFetch "o" "r" "master" ∈
      (processParsed (mkEnv (.ok dMITnoBranch) (.err 404) (.ok ()))
        "output" none "o/r" "o" "r").1 :=
  missing_default_branch_uses_master (mkEnv (.ok dMITnoBranch) (.err 404) (.ok ()))
    "output" none "o/r" "o" "r" dMITnoBranch lMIT
    (by decide) (by decide) (by decide) (by decide) (by decide) (by decide)

/-- C9: a README fetch that returns HTTP 200 with an empty body is treated
as unavailable: the repository is skipped with the no-README warning and no
file is written, and no exception escapes. -/
theorem empty_readme_body_skipped (env : Env) (output_dir : String)
    (token : Option String) (full_repo owner repo : String)
    (d : RepoData) (l : LicenseInfo)
    (hmeta : env.repo_info_response owner repo (buildHeaders token) = .ok d)
    (htru : d.truthy = true)
    (hlic : d.license = some l)
    (hltru : l.truthy = true)
    (hallow : licenseGateAccepts l = true)
    (hreadme : env.readme_response owner repo (d.default_branch.getD "master")
      (buildHeaders token) = .ok "") :
    (processParsed env output_dir token full_repo owner repo).2 = false ∧
    Event.log .warning ("Repository " ++ full_repo ++
      " does not have a README.md or it could not be downloaded.") ∈
      (processParsed env output_dir token full_repo owner repo).1 ∧
    (processParsed env output_dir token full_repo owner repo).1.filter Event.isFileWrite = [] := by
  simp [processParsed, get_repo_info, download_readme,
    hmeta, htru, hlic, hltru, hallow, hreadme, Event.isFileWrite, List.filter]

/-- Witness for C9 at a concrete 200-with-empty-body README response. -/
theorem empty_readme_body_skipped_witness :
    (processParsed (mkEnv (.ok dMIT) (.ok "") (.ok ()))
      "output" none "o/r" "o" "r").2 = false ∧
    Event.log .warning
      ("Repository " ++ "o/r" ++ " does not have a README.md or it could not be downloaded.") ∈
      (processParsed (mkEnv (.ok dMIT) (.ok "") (.ok ()))
        "output" none "o/r" "o" "r").1 ∧
    (processParsed (mkEnv (.ok dMIT) (.ok "") (.ok ()))
      "output" none "o/r" "o" "r").1.filter Event.isFileWrite = [] :=
  empty_readme_body_skipped (mkEnv (.ok dMIT) (.ok "") (.ok ()))
    "output" none "o/r" "o" "r" dMIT lMIT
    (by decide) (by decide) (by decide) (by decide) (by decide) (by decide)

/-- C1 counterexample: with the input list `[a/b, c/d]` and a transport
exception raised by the metadata fetch of `a/b`, the batch aborts: the
exception is not logged at error level and `c/d` is never fetched, refuting
the claim that a transport exception is logged and skips only the one
repository. -/
theorem transport_exception_aborts_batch :
    (process_repositories envExn ["a/b", "c/d"] "output" none).2 = true ∧
    Event.metaFetch "a" "b" ∈ (process_repositories envExn ["a/b", "c/d"] "output" none).1 ∧
    Event.metaFetch "c" "d" ∉ (process_repositories envExn ["a/b", "c/d"] "output" none).1 ∧
    (process_repositories envExn ["a/b", "c/d"] "output" none).1.filter Event.isErrorLog = [] := by
  decide

/-- C1 amended: a non-200 HTTP response on the metadata or README fetch is
logged at error level and causes only that repository to be skipped, with
the loop continuing through the remaining entries; a transport exception
raised by either HTTP call, however, is not caught and not logged: it
propagates out of the loop and aborts the batch, so no later entry is
processed. -/
theorem fetch_failure_isolation_amended (env : Env) (output_dir : String)
    (token : Option String) (entry owner repo : String) (rest : List String)
    (htrim : pyStrip entry = entry) (hne : entry ≠ "")
    (hsplit : pySplit '/' entry = [owner, repo]) :
    (∀ s t, env.repo_info_response owner repo (buildHeaders token) = .err s t →
      (processOne env output_dir token entry).2 = false ∧
      (processOne env output_dir token entry).1.filter Event.isErrorLog ≠ [] ∧
      (processOne env output_dir token entry).1.filter Event.isFileWrite = [] ∧
      process_repositories env (entry :: rest) output_dir token =
        ((processOne env output_dir token entry).1 ++
          (process_repositories env rest output_dir token).1,
         (process_repositories env rest output_dir token).2)) ∧
    (env.repo_info_response owner repo (buildHeaders token) = .exn →
      (processOne env output_dir token entry).2 = true ∧
      (processOne env output_dir token entry).1.filter Event.isErrorLog = [] ∧
      process_repositories env (entry :: rest) output_dir token =
        ((processOne env output_dir token entry).1, true)) ∧
    (∀ (d : RepoData) (l : LicenseInfo) (s : Nat),
      env.repo_info_response owner repo (buildHeaders token) = .ok d →
      d.truthy = true → d.license = some l → l.truthy = true →
      licenseGateAccepts l = true →
      env.readme_response owner repo (d.default_branch.getD "master") (buildHeaders token) = .err s →
      (processOne env output_dir token entry).2 = false ∧
      (processOne env output_dir token entry).1.filter Event.isErrorLog ≠ [] ∧
      (processOne env output_dir token entry).1.filter Event.isFileWrite = [] ∧
      process_repositories env (entry :: rest) output_dir token =
        ((processOne env output_dir token entry).1 ++
          (process_repositories env rest output_dir token).1,
         (process_repositories env rest output_dir token).2)) ∧
    (∀ (d : RepoData) (l : LicenseInfo),
      env.repo_info_response owner repo (buildHeaders token) = .ok d →
      d.truthy = true → d.license = some l → l.truthy = true →
      licenseGateAccepts l = true →
      env.readme_response owner repo (d.default_branch.getD "master") (buildHeaders token) = .exn →
      (processOne env output_dir token entry).2 = true ∧
      (processOne env output_dir token entry).1.filter Event.isErrorLog = [] ∧
      process_repositories env (entry :: rest) output_dir token =
        ((processOne env output_dir token entry).1, true)) := by
  have heq := processOne_eq_processParsed env output_dir token entry owner repo htrim hne hsplit
  refine ⟨?_, ?_, ?_, ?_⟩
  · intro s t hm
    have h2 : (processOne env output_dir token entry).2 = false := by
      rw [heq]; simp [processParsed, get_repo_info, hm]
    refine ⟨h2, ?_, ?_, process_repositories_cons_ok env rest output_dir token entry h2⟩
    · rw [heq]
      simp [processParsed, get_repo_info, hm, Event.isErrorLog, List.filter]
    · rw [heq]
      simp [processParsed, get_repo_info, hm, Event.isFileWrite, List.filter]
  · intro hm
    have h2 : (processOne env output_dir token entry).2 = true := by
      rw [heq]; simp [processParsed, get_repo_info, hm]
    refine ⟨h2, ?_, process_repositories_cons_abort env rest output_dir token entry h2⟩
    rw [heq]
    simp [processParsed, get_repo_info, hm, Event.isErrorLog, List.filter]
  · intro d l s hm htru hlic hltru hallow hr
    have h2 : (processOne env output_dir token entry).2 = false := by
      rw [heq]
      simp [processParsed, get_repo_info, download_readme, hm, htru, hlic, hltru, hallow, hr]
    refine ⟨h2, ?_, ?_, process_repositories_cons_ok env rest output_dir token entry h2⟩
    · rw [heq]
      simp [processParsed, get_repo_info, download_readme, hm, htru, hlic, hltru, hallow, hr,
        Event.isErrorLog, List.filter]
    · rw [heq]
      simp [processParsed, get_repo_info, download_readme, hm, htru, hlic, hltru, hallow, hr,
        Event.isFileWrite, List.filter]
  · intro d l hm htru hlic hltru hallow hr
    have h2 : (processOne env output_dir token entry).2 = true := by
      rw [heq]
      simp [processParsed, get_repo_info, download_readme, hm, htru, hlic, hltru, hallow, hr]
    refine ⟨h2, ?_, process_repositories_cons_abort env rest output_dir token entry h2⟩
    rw [heq]
    simp [processParsed, get_repo_info, download_readme, hm, htru, hlic, hltru, hallow, hr,
      Event.isErrorLog, List.filter]

/-- Witness for the amended C1: a 500 on the metadata fetch of `c/d` is an
error-logged skip, while the transport exception on `a/b` ends the batch
with the remaining entry unprocessed. -/
theorem fetch_failure_isolation_amended_witness :
    ((processOne envExn "output" none "c/d").2 = false ∧
     (processOne envExn "output" none "c/d").1.filter Event.isErrorLog ≠ []) ∧
    ((processOne envExn "output" none "a/b").2 = true ∧
     process_repositories envExn ["a/b", "x/y"] "output" none =
       ((processOne envExn "output" none "a/b").1, true)) := by
  have hc := fetch_failure_isolation_amended envExn "output" none "c/d" "c" "d" []
    (by decide) (by decide) (by decide)
  have ha := fetch_failure_isolation_amended envExn "output" none "a/b" "a" "b" ["x/y"]
    (by decide) (by decide) (by decide)
  exact ⟨⟨(hc.1 500 "Server Error" (by decide)).1, (hc.1 500 "Server Error" (by decide)).2.1⟩,
    ⟨(ha.2.1 (by decide)).1, (ha.2.1 (by decide)).2.2⟩⟩

/-- C10 counterexample: a metadata document whose `license` value is the
empty object (present, but with no key at all, hence no `name`) is treated
as license-absent, because an empty Python dict is falsy: the pipeline logs
the no-license warning, not the disallowed-license warning the claim
predicts. -/
theorem empty_license_object_treated_absent :
    Event.log .warning "Repository o/r does not have a license. Skipping." ∈
      (process_repositories (mkEnv (.ok dEmptyLicense) (.ok "# Hello") (.ok ()))
        ["o/r"] "output" none).1 ∧
    Event.log .warning "Repository o/r has a license  which is not allowed. Skipping." ∉
      (process_repositories (mkEnv (.ok dEmptyLicense) (.ok "# Hello") (.ok ()))
        ["o/r"] "output" none).1 := by
  decide

/-- C10 amended: a metadata document whose license object is present,
non-empty, and lacks the `name` key yields the empty string as license
name, which is not in the allow-list, so the repository is rejected as
having a disallowed license: the disallowed-license warning is logged with
an empty name, no README fetch and no write happen, and no exception
escapes.  (A license object that is entirely empty is falsy in Python and
is instead treated as license-absent.) -/
theorem nameless_license_rejected_amended (env : Env) (output_dir : String)
    (token : Option String) (full_repo owner repo : String)
    (d : RepoData) (l : LicenseInfo)
    (hmeta : env.repo_info_response owner repo (buildHeaders token) = .ok d)
    (htru : d.truthy = true)
    (hlic : d.license = some l)
    (hname : l.name = none)
    (hother : l.hasOtherKeys = true) :
    (processParsed env output_dir token full_repo owner repo).2 = false ∧
    Event.log .warning ("Repository " ++ full_repo ++
      " has a license " ++ "" ++ " which is not allowed. Skipping.") ∈
      (processParsed env output_dir token full_repo owner repo).1 ∧
    (processParsed env output_dir token full_repo owner repo).1.filter Event.isReadmeFetch = [] ∧
    (processParsed env output_dir token full_repo owner repo).1.filter Event.isFileWrite = [] := by
  have hltru : l.truthy = true := by simp [LicenseInfo.truthy, hname, hother]
  have hgate : licenseGateAccepts l = false := by
    simp [licenseGateAccepts, hname, ALLOWED_LICENSES, pyLower]
  simp [processParsed, get_repo_info, hmeta, htru, hlic, hltru, hgate, hname,
    Event.isReadmeFetch, Event.isFileWrite, List.filter, pyLower]

/-- Witness for the amended C10 at a concrete non-empty nameless license
object. -/
theorem nameless_license_rejected_amended_witness :
    (processParsed (mkEnv (.ok dNameless) (.ok "# Hello") (.ok ()))
      "output" none "o/r" "o" "r").2 = false ∧
    Event.log .warning ("Repository " ++ "o/r" ++
      " has a license " ++ "" ++ " which is not allowed. Skipping.") ∈
      (processParsed (mkEnv (.ok dNameless) (.ok "# Hello") (.ok ()))
        "output" none "o/r" "o" "r").1 ∧
    (processParsed (mkEnv (.ok dNameless) (.ok "# Hello") (.ok ()))
      "output" none "o/r" "o" "r").1.filter Event.isReadmeFetch = [] := by
  have h := nameless_license_rejected_amended (mkEnv (.ok dNameless) (.ok "# Hello") (.ok ()))
    "output" none "o/r" "o" "r" dNameless lNameless
    (by decide) (by decide) (by decide) (by decide) (by decide)
  exact ⟨h.1, h.2.1, h.2.2.1⟩

end Cazira
